import Mathlib

/-!
Shallow embedding of `create_presentation.py`, a script that builds a fixed
slide deck by placing shapes, text boxes and a best-effort logo picture on
slides at literal coordinates (in inches).

Each slide is a list of shapes in paint (insertion) order.  A shape carries
its kind, position and size in inches (exact rationals), its fill and line
style, and the paragraphs of its text frame.  The three renderers
`add_title_slide`, `add_two_column_slide` and `add_content_slide_with_sections`
are translated line by line from the source; the best-effort logo load
(`try: add_picture ... except: pass`) is modelled by an `Option` parameter
carrying the placed picture width when the image loads, `none` when loading
fails and the exception is swallowed.
-/

namespace Panagora

/-- An RGB color, as produced by RGBColor(r, g, b). -/
structure RGB where
  r : Nat
  g : Nat
  b : Nat
deriving DecidableEq

/-- Brand color constants from the source. -/
def NAVY : RGB := ⟨0, 51, 102⟩

def ROYAL_BLUE : RGB := ⟨0, 102, 153⟩

def GOLD : RGB := ⟨0, 153, 153⟩

def CHARCOAL : RGB := ⟨51, 51, 51⟩

def LIGHT_GRAY : RGB := ⟨240, 243, 245⟩

def WHITE : RGB := ⟨255, 255, 255⟩

/-- Paragraph alignment values the script uses (PP_ALIGN.LEFT / CENTER). -/
inductive ParaAlign
  | left
  | center
deriving DecidableEq

/-- One paragraph of a text frame.  Fields the script never sets stay at the
library defaults, modelled as `none` / empty text. -/
structure Para where
  text : String := ""
  size : Option ℚ := none
  bold : Option Bool := none
  italic : Option Bool := none
  color : Option RGB := none
  align : Option ParaAlign := none
  spaceBefore : Option ℚ := none
deriving DecidableEq

/-- The default (empty) paragraph a fresh text frame holds. -/
def emptyPara : Para := {}

/-- Shape kinds the script creates. -/
inductive ShapeKind
  | rectangle
  | roundedRectangle
  | oval
  | picture
  | textbox
deriving DecidableEq

/-- Fill style: library default, or an explicit solid fill. -/
inductive Fill
  | auto
  | solid (c : RGB)
deriving DecidableEq

/-- Line style: library default, removed (line.fill.background()), or an
explicit color (line.color.rgb = c). -/
inductive Line
  | auto
  | background
  | colored (c : RGB)
deriving DecidableEq

/-- A placed shape: kind, position and size in inches, styling, and the
paragraphs of its text frame. -/
structure Shape where
  kind : ShapeKind
  x : ℚ
  y : ℚ
  w : ℚ
  h : ℚ
  fill : Fill := .auto
  line : Line := .auto
  wordWrap : Option Bool := none
  paras : List Para := []
deriving DecidableEq

/-- A dummy shape used as the default of positional lookups. -/
def noShape : Shape :=
  { kind := .rectangle, x := 0, y := 0, w := 0, h := 0 }

/-- slide.shapes.add_shape: an autoshape with a fill and line style; its fresh
text frame holds one empty paragraph. -/
def autoShape (kind : ShapeKind) (x y w h : ℚ) (fill : Fill) (line : Line) : Shape :=
  { kind := kind, x := x, y := y, w := w, h := h, fill := fill, line := line,
    paras := [emptyPara] }

/-- slide.shapes.add_textbox followed by the script writing its paragraphs. -/
def textbox (x y w h : ℚ) (wrap : Option Bool) (paras : List Para) : Shape :=
  { kind := .textbox, x := x, y := y, w := w, h := h, wordWrap := wrap,
    paras := paras }

/-- slide.shapes.add_picture with an explicit height; the width comes from the
image file and is a parameter of the model. -/
def picture (x y w h : ℚ) : Shape :=
  { kind := .picture, x := x, y := y, w := w, h := h }

/-- Python truthiness of an optional string argument (`if tagline:`):
false for a missing argument and for the empty string. -/
def pyTruthy : Option String → Bool
  | none => false
  | some s => !s.isEmpty

/-- The best-effort logo block (`try: add_picture ... except: pass`): when the
image loads, one picture of the given placed width appears; when it fails,
nothing is added and the exception is swallowed. -/
def logoShapes (logo : Option ℚ) (x y h : ℚ) : List Shape :=
  match logo with
  | none => []
  | some w => [picture x y w h]

/-- One paragraph of an item loop: styled text with spacing before every item
but the first. -/
def itemPara (pre : String) (size : ℚ) (color : RGB) (gap : ℚ) (i : ℕ)
    (item : String) : Para :=
  { text := pre ++ item, size := some size, color := some color,
    spaceBefore := some (if 0 < i then gap else 0) }

/-- The item loop over a fresh text frame: an empty list leaves the single
default paragraph in place; otherwise paragraph i holds item i (the first
replaces the default paragraph, the rest are added). -/
def itemsText (pre : String) (size : ℚ) (color : RGB) (gap : ℚ)
    (items : List String) : List Para :=
  match items with
  | [] => [emptyPara]
  | _ => items.enum.map fun p => itemPara pre size color gap p.1 p.2

/-- add_title_slide(prs, title, subtitle, tagline=None), lines 21-65. -/
def add_title_slide (logo : Option ℚ) (title subtitle : String)
    (tagline : Option String) : List Shape :=
  [autoShape .rectangle 0 0 13.333 7.5 (.solid NAVY) .background,
   autoShape .rectangle 0 0 13.333 0.15 (.solid GOLD) .background]
  ++ logoShapes logo 10.5 0.4 0.8
  ++ [textbox 0.8 2.2 11.733 1.8 (some true)
        [{ text := title, size := some 54, bold := some true,
           color := some WHITE, align := some .left }],
      textbox 0.8 4.0 11.733 0.8 none
        [{ text := subtitle, size := some 22, color := some GOLD,
           align := some .left }],
      autoShape .rectangle 0 6.8 13.333 0.7 (.solid ROYAL_BLUE) .background]
  ++ (if pyTruthy tagline then
        [textbox 0.8 6.9 11.733 0.5 none
          [{ text := tagline.getD "", size := some 16, color := some WHITE,
             align := some .left }]]
      else [])

/-- add_two_column_slide(prs, title, left_title, left_items, right_title,
right_items), lines 67-137. -/
def add_two_column_slide (logo : Option ℚ) (title left_title : String)
    (left_items : List String) (right_title : String)
    (right_items : List String) : List Shape :=
  [autoShape .rectangle 0 0 13.333 1.5 (.solid NAVY) .background,
   autoShape .rectangle 0 1.5 13.333 0.06 (.solid GOLD) .background]
  ++ logoShapes logo 11.5 0.35 0.7
  ++ [textbox 0.6 0.4 10.5 0.9 none
        [{ text := title, size := some 30, bold := some true,
           color := some WHITE, align := some .left }],
      autoShape .roundedRectangle 0.5 1.9 5.9 5.0 (.solid LIGHT_GRAY)
        (.colored ⟨200, 200, 200⟩),
      textbox 0.7 2.1 5.5 0.5 none
        [{ text := left_title, size := some 20, bold := some true,
           color := some NAVY }],
      textbox 0.7 2.7 5.5 4.0 (some true) (itemsText "" 14 CHARCOAL 10 left_items),
      autoShape .roundedRectangle 6.9 1.9 5.9 5.0 (.solid NAVY) .background,
      textbox 7.1 2.1 5.5 0.5 none
        [{ text := right_title, size := some 20, bold := some true,
           color := some GOLD }],
      textbox 7.1 2.7 5.5 4.0 (some true) (itemsText "" 14 WHITE 10 right_items)]

/-- One section of a sectioned content slide: a dict with keys header, items. -/
structure Section where
  header : String
  items : List String
deriving DecidableEq

/-- section_width, line 173. -/
def section_width : ℚ := 3.9

/-- section_gap, line 174. -/
def section_gap : ℚ := 0.3

/-- start_x, line 175. -/
def start_x : ℚ := 0.5

/-- x_pos = start_x + i * (section_width + section_gap), line 177. -/
def x_pos (i : ℕ) : ℚ := start_x + i * (section_width + section_gap)

/-- The rounded-rectangle card background of section i, line 178. -/
def cardBox (i : ℕ) : Shape :=
  autoShape .roundedRectangle (x_pos i) 1.85 section_width 5.3 (.solid LIGHT_GRAY)
    (.colored ⟨200, 200, 200⟩)

/-- The circular number badge of section i, line 182. -/
def badgeCircle (i : ℕ) : Shape :=
  autoShape .oval (x_pos i + 0.15) 2.0 0.45 0.45 (.solid ROYAL_BLUE) .background

/-- The textbox holding the badge number str(i + 1), lines 186-193. -/
def badgeNum (i : ℕ) : Shape :=
  textbox (x_pos i + 0.15) 2.05 0.45 0.4 none
    [{ text := toString (i + 1), size := some 18, bold := some true,
       color := some WHITE, align := some .center }]

/-- The section header textbox, lines 194-201. -/
def headerBox (i : ℕ) (header : String) : Shape :=
  textbox (x_pos i + 0.7) 2.0 (section_width - 0.9) 0.6 (some true)
    [{ text := header, size := some 15, bold := some true, color := some NAVY }]

/-- The bulleted items textbox of a card, lines 202-213; each item gets the
bullet glyph prefixed. -/
def itemsBox (i : ℕ) (items : List String) : Shape :=
  textbox (x_pos i + 0.2) 2.65 (section_width - 0.4) 4.3 (some true)
    (itemsText "» " 12 CHARCOAL 8 items)

/-- One loop iteration of the section loop, lines 176-213: the five shapes of
card i in paint order. -/
def sectionCard (i : ℕ) (s : Section) : List Shape :=
  [cardBox i, badgeCircle i, badgeNum i, headerBox i s.header, itemsBox i s.items]

/-- The shapes a sectioned content slide holds before the section loop:
header band, gold line, best-effort logo, optional personalization line,
title box (lines 142-172). -/
def sectionedHead (logo : Option ℚ) (title : String)
    (personalized_for : Option String) : List Shape :=
  [autoShape .rectangle 0 0 13.333 1.5 (.solid NAVY) .background,
   autoShape .rectangle 0 1.5 13.333 0.06 (.solid GOLD) .background]
  ++ logoShapes logo 11.5 0.35 0.7
  ++ (if pyTruthy personalized_for then
        [textbox 0.6 1.1 10 0.3 none
          [{ text := personalized_for.getD "", size := some 12,
             italic := some true, color := some GOLD, align := some .left }]]
      else [])
  ++ [textbox 0.6 0.4 10.5 0.9 none
        [{ text := title, size := some 30, bold := some true,
           color := some WHITE, align := some .left }]]

/-- add_content_slide_with_sections(prs, title, sections,
personalized_for=None), lines 139-214. -/
def add_content_slide_with_sections (logo : Option ℚ) (title : String)
    (sections : List Section) (personalized_for : Option String) : List Shape :=
  sectionedHead logo title personalized_for
    ++ (sections.enum.map fun p => sectionCard p.1 p.2).flatten

/-- Appending a rendered slide to the accumulating presentation. -/
def addSlide (deck : List (List Shape)) (slide : List Shape) : List (List Shape) :=
  deck ++ [slide]

/-- Is a shape the best-effort logo picture? -/
def isPicture : ShapeKind → Bool
  | .picture => true
  | _ => false

/-- The non-logo shapes of a slide. -/
def nonLogo (slide : List Shape) : List Shape :=
  slide.filter fun sh => !isPicture sh.kind

/-- A paragraph produced by the bullet loop: its text starts with the bullet
glyph and a space. -/
def isBulletPara (p : Para) : Bool :=
  p.text.data.take 2 == ['»', ' ']

/-- A shape lies within the canvas bounds (13.333in by 7.5in). -/
def inBounds (sh : Shape) : Prop :=
  0 ≤ sh.x ∧ 0 ≤ sh.y ∧ sh.x + sh.w ≤ 13.333 ∧ sh.y + sh.h ≤ 7.5

instance (sh : Shape) : Decidable (inBounds sh) := by
  unfold inBounds; infer_instance

/-- A best-effort logo either fails to load or loads with a nonnegative placed
width of at most m. -/
def logoFits (logo : Option ℚ) (m : ℚ) : Prop :=
  ∀ w, logo = some w → 0 ≤ w ∧ w ≤ m

/-- The reference instance, lines 216-232: the four hardcoded render calls,
in order, with their literal content.  The four logo parameters model the
best-effort logo load of each call. -/
def referenceDeck (l1 l2 l3 l4 : Option ℚ) : List (List Shape) :=
  [add_title_slide l1 "Accelerating Growth\nin the AI Era"
    "Distribution Strategy | Investor Engagement | AUM Expansion"
    (some "Panagora Asset Management  |  Strategic Discussion  |  December 2024"),
   add_two_column_slide l2 "The Quantitative Investing Landscape & Panagora\x27s Edge"
    "MARKET DYNAMICS"
    ["» $2T+ in systematic AUM globally—quant now mainstream",
     "» Shift from \x27big data\x27 to \x27smart data\x27 with demonstrable alpha",
     "» ESG integration table stakes, but quality data scarce",
     "» Risk Parity gaining traction: 60/40 portfolios carry 93% equity risk",
     "» AI reshaping both investment process AND distribution expectations"]
    "PANAGORA DIFFERENTIATORS"
    ["» Proprietary data creation: biotech FDA models, NLP sentiment, Chinese social scraping",
     "» \x27Discovery & Dollars\x27 philosophy—human-machine synthesis",
     "» Integrated research + portfolio management teams",
     "» Risk Parity leadership: 0.87 vs 0.67 Sharpe (vs 60/40)",
     "» ESG innovation: greenwashing detection via NLP, materiality focus"],
   add_content_slide_with_sections l3
    "AI-Era Distribution: Intelligent Lead Management & Engagement"
    [⟨"Predictive Lead Scoring",
      ["ML models on CRM data: score by conversion probability & AUM potential",
       "External signals: job changes, RFP activity, regulatory filings, conference attendance",
       "Real-time alerts on buying intent: website visits, content downloads",
       "Prioritize sales time on highest-value opportunities"]⟩,
     ⟨"Hyper-Personalized Outreach",
      ["AI-drafted communications tailored to portfolio gaps & interests",
       "Dynamic content: Risk Parity to consultants, ESG to pensions",
       "Adaptive nurture sequences based on engagement patterns",
       "Scale personalization without scaling headcount"]⟩,
     ⟨"Intelligent Meeting Prep",
      ["AI briefing docs: holdings, recent allocations, stated concerns",
       "Competitive positioning summaries before every pitch",
       "Conversation guides highlighting relevant Panagora strengths",
       "Post-meeting auto-generated follow-up recommendations"]⟩]
    (some "Created for Discussion with Tim Stanton"),
   add_content_slide_with_sections l4
    "Generating Buzz: Thought Leadership & Publicity for Modern Investors"
    [⟨"AI-Powered Content Engine",
      ["Research → white papers → podcasts → social threads → video clips",
       "Real-time market commentary: AI draft + human polish = speed + quality",
       "Interactive \x27Risk Parity Portfolio Builder\x27 for prospects",
       "\x27Smart Data, Smart Alpha\x27 thought leadership series"]⟩,
     ⟨"Strategic Amplification",
      ["LinkedIn optimization: timing, hashtags, engagement triggers",
       "Earned media: pitch \x27Why 60/40 is dead\x27 angles to financial press",
       "Podcast circuit: CIO shows with Eric\x27s \x27pilot + quant\x27 narrative",
       "Update & amplify Institutional Investor Risk Parity research"]⟩,
     ⟨"Community & Events",
      ["Virtual \x27Quant Masterclass\x27 series—exclusive, invite-only",
       "AI-powered post-event follow-up within 24 hours",
       "Target ICP: diversification seekers, pension CIOs",
       "Build long-term relationships, not just transactions"]⟩]
    none]

/-- Every paragraph the bullet item loop emits starts with the bullet glyph. -/
theorem isBulletPara_itemPara (size gap : ℚ) (color : RGB) (i : ℕ) (item : String) :
    isBulletPara (itemPara "» " size color gap i item) = true := by
  simp [isBulletPara, itemPara, String.data_append]

/-- The bullet paragraphs of an items textbox number exactly the items, also
for the empty list (whose sole default paragraph carries no bullet). -/
theorem countP_isBulletPara_itemsText (size gap : ℚ) (color : RGB)
    (items : List String) :
    (itemsText "» " size color gap items).countP isBulletPara = items.length := by
  cases items with
  | nil => rfl
  | cons a l =>
    have he : itemsText "» " size color gap (a :: l)
        = (a :: l).enum.map fun p => itemPara "» " size color gap p.1 p.2 := rfl
    rw [he, List.countP_eq_length.2]
    · simp [List.enum_length]
    · intro q hq
      obtain ⟨p, hp, rfl⟩ := List.mem_map.1 hq
      exact isBulletPara_itemPara size gap color p.1 p.2

/-- The item loop leaves max(1, number of items) paragraphs in the textbox. -/
theorem itemsText_length (pre : String) (size gap : ℚ) (color : RGB)
    (items : List String) :
    (itemsText pre size color gap items).length = max 1 items.length := by
  cases items with
  | nil => rfl
  | cons a l =>
    show ((a :: l).enum.map fun p => itemPara pre size color gap p.1 p.2).length = _
    simp [List.enum_length]

/-- Claim C3: in add_content_slide_with_sections the x-offset of card i is
start_x + i * (section_width + section_gap); adjacent card offsets differ by
exactly section_width + section_gap = 3.9 + 0.3 = 4.2 inches, offsets are
strictly increasing, and the first card starts at 0.5 inches.  The card
background of card i (shape 0 of the card) sits at that x-offset. -/
theorem card_offsets_evenly_spaced :
    (∀ i : ℕ, x_pos (i + 1) - x_pos i = section_width + section_gap) ∧
    (∀ i : ℕ, x_pos i < x_pos (i + 1)) ∧
    section_width + section_gap = 3.9 + 0.3 ∧
    section_width + section_gap = 4.2 ∧
    start_x = 0.5 ∧ x_pos 0 = 0.5 ∧
    (∀ (i : ℕ) (sec : Section),
      ((sectionCard i sec).getD 0 noShape).x = x_pos i) := by
  refine ⟨?_, ?_, ?_, ?_, ?_, ?_, ?_⟩
  · intro i
    simp only [x_pos, section_width, section_gap, start_x]
    push_cast
    ring_nf
  · intro i
    simp only [x_pos, section_width, section_gap, start_x]
    have : (0 : ℚ) ≤ i := Nat.cast_nonneg i
    push_cast
    nlinarith
  · norm_num [section_width, section_gap]
  · norm_num [section_width, section_gap]
  · rfl
  · norm_num [x_pos, start_x]
  · intro i sec
    rfl

/-- Claim C5: add_two_column_slide with left items ["a", "b"] and right items
["c"] (logo unavailable) yields a left content textbox (shape 5) with exactly
2 paragraphs, a right content textbox (shape 8) with exactly 1 paragraph, a
left panel (shape 3) filled LIGHT_GRAY and a right panel (shape 6) filled
NAVY, and those two fills differ. -/
theorem two_column_scenario :
    ((add_two_column_slide none "T" "L" ["a", "b"] "R" ["c"]).getD 5 noShape).paras.length = 2 ∧
    ((add_two_column_slide none "T" "L" ["a", "b"] "R" ["c"]).getD 8 noShape).paras.length = 1 ∧
    ((add_two_column_slide none "T" "L" ["a", "b"] "R" ["c"]).getD 3 noShape).fill
      = Fill.solid LIGHT_GRAY ∧
    ((add_two_column_slide none "T" "L" ["a", "b"] "R" ["c"]).getD 6 noShape).fill
      = Fill.solid NAVY ∧
    LIGHT_GRAY ≠ NAVY :=
  ⟨rfl, rfl, rfl, rfl, by decide⟩

/-- Claim C2, counterexample: a title slide with no tagline and the logo
unavailable has 5 shapes, not 4 as claimed. -/
theorem title_slide_not_four_shapes :
    ¬ (add_title_slide none "A" "B" none).length = 4 := by
  decide

/-- Claim C2, amended: a title slide with no tagline and the logo unavailable
has exactly 5 shapes (background, accent bar, title box, subtitle box, bottom
bar), of which exactly 2 are textboxes and none is a picture, and no shape
sits at the tagline position y = 6.9 or the personalization position
y = 1.1. -/
theorem title_slide_no_tagline (t s : String) :
    (add_title_slide none t s none).length = 5 ∧
    ((add_title_slide none t s none).countP fun sh => isPicture sh.kind) = 0 ∧
    ((add_title_slide none t s none).countP fun sh => sh.kind == ShapeKind.textbox) = 2 ∧
    ∀ sh ∈ add_title_slide none t s none, sh.y ≠ 6.9 ∧ sh.y ≠ 1.1 := by
  refine ⟨rfl, rfl, rfl, ?_⟩
  intro sh hsh
  simp [add_title_slide, logoShapes, pyTruthy] at hsh
  rcases hsh with h | h | h | h | h <;> subst h <;>
    constructor <;> norm_num [autoShape, textbox]

/-- Witness for title_slide_no_tagline at title "A", subtitle "B", applied to
the background shape. -/
theorem title_slide_no_tagline_witness :
    (add_title_slide none "A" "B" none).length = 5 ∧
    ((add_title_slide none "A" "B" none).getD 0 noShape).y ≠ 6.9 :=
  ⟨(title_slide_no_tagline "A" "B").1,
   ((title_slide_no_tagline "A" "B").2.2.2 _
     (by simp [add_title_slide, logoShapes, pyTruthy])).1⟩

/-- Claim C1: a sectioned content slide is its fixed head followed by exactly
one five-shape card per section, in order; every card holds exactly one oval
badge (whose number textbox, shape 2, shows str(i + 1)), exactly three
textboxes, of which shape 3 is the single header region and shape 4 the items
region, and the items region holds exactly one bullet paragraph per item of
that section. -/
theorem sectioned_slide_cardinality (logo : Option ℚ) (title : String)
    (sections : List Section) (pers : Option String) :
    add_content_slide_with_sections logo title sections pers
      = sectionedHead logo title pers
        ++ (sections.enum.map fun p => sectionCard p.1 p.2).flatten ∧
    (sections.enum.map fun p => sectionCard p.1 p.2).length = sections.length ∧
    ∀ (i : ℕ) (sec : Section),
      (sectionCard i sec).length = 5 ∧
      ((sectionCard i sec).countP fun sh => sh.kind == ShapeKind.oval) = 1 ∧
      ((sectionCard i sec).countP fun sh => sh.kind == ShapeKind.textbox) = 3 ∧
      (sectionCard i sec).getD 1 noShape = badgeCircle i ∧
      (badgeCircle i).kind = ShapeKind.oval ∧
      (sectionCard i sec).getD 2 noShape = badgeNum i ∧
      (badgeNum i).paras.map Para.text = [toString (i + 1)] ∧
      (sectionCard i sec).getD 3 noShape = headerBox i sec.header ∧
      (headerBox i sec.header).paras.map Para.text = [sec.header] ∧
      (sectionCard i sec).getD 4 noShape = itemsBox i sec.items ∧
      (itemsBox i sec.items).paras.countP isBulletPara = sec.items.length := by
  refine ⟨rfl, by simp [List.enum_length], ?_⟩
  intro i sec
  refine ⟨rfl, rfl, rfl, rfl, rfl, rfl, rfl, rfl, rfl, rfl, ?_⟩
  exact countP_isBulletPara_itemsText 12 8 CHARCOAL sec.items

/-- Claim C6: a sectioned content slide with three sections (logo unavailable,
no personalization) has 18 shapes; its three card backgrounds (shapes 3, 8,
13) sit at x_pos 0, x_pos 1, x_pos 2, which are 0.5, 0.5 + 4.2 and
0.5 + 2 * 4.2 inches; its badge number boxes (shapes 5, 10, 15) read "1",
"2", "3" in order, and in general the badge of card i reads the decimal
rendering of i + 1. -/
theorem sectioned_three_sections (A B C : Section) (title : String) :
    (add_content_slide_with_sections none title [A, B, C] none).length = 18 ∧
    ((add_content_slide_with_sections none title [A, B, C] none).getD 3 noShape).x = x_pos 0 ∧
    ((add_content_slide_with_sections none title [A, B, C] none).getD 8 noShape).x = x_pos 1 ∧
    ((add_content_slide_with_sections none title [A, B, C] none).getD 13 noShape).x = x_pos 2 ∧
    x_pos 0 = 0.5 ∧
    x_pos 1 = 0.5 + (section_width + section_gap) ∧
    x_pos 2 = 0.5 + 2 * (section_width + section_gap) ∧
    ((add_content_slide_with_sections none title [A, B, C] none).getD 5 noShape).paras.map
      Para.text = ["1"] ∧
    ((add_content_slide_with_sections none title [A, B, C] none).getD 10 noShape).paras.map
      Para.text = ["2"] ∧
    ((add_content_slide_with_sections none title [A, B, C] none).getD 15 noShape).paras.map
      Para.text = ["3"] ∧
    ∀ i : ℕ, (badgeNum i).paras.map Para.text = [Nat.repr (i + 1)] := by
  refine ⟨rfl, rfl, rfl, rfl, ?_, ?_, ?_, ?_, ?_, ?_, fun i => rfl⟩
  · norm_num [x_pos, start_x, section_width, section_gap]
  · norm_num [x_pos, start_x, section_width, section_gap]
  · norm_num [x_pos, start_x, section_width, section_gap]
  · show (badgeNum 0).paras.map Para.text = ["1"]
    decide
  · show (badgeNum 1).paras.map Para.text = ["2"]
    decide
  · show (badgeNum 2).paras.map Para.text = ["3"]
    decide

/-- Claim C9: an empty item list leaves the single default (empty) paragraph
in the content textbox, so an items textbox holds max(1, number of items)
paragraphs, in both the two-column panels (shapes 5 and 8 with the logo
unavailable) and the sectioned cards. -/
theorem empty_items_keep_default_paragraph :
    (∀ (pre : String) (size gap : ℚ) (color : RGB),
      itemsText pre size color gap [] = [emptyPara]) ∧
    emptyPara.text = "" ∧
    (∀ (pre : String) (size gap : ℚ) (color : RGB) (items : List String),
      (itemsText pre size color gap items).length = max 1 items.length) ∧
    (∀ (t lt rt : String) (li ri : List String),
      ((add_two_column_slide none t lt li rt ri).getD 5 noShape).paras.length
        = max 1 li.length ∧
      ((add_two_column_slide none t lt li rt ri).getD 8 noShape).paras.length
        = max 1 ri.length) ∧
    (∀ (i : ℕ) (items : List String),
      (itemsBox i items).paras.length = max 1 items.length) := by
  refine ⟨fun pre size gap color => rfl, rfl, ?_, ?_, ?_⟩
  · exact itemsText_length
  · intro t lt rt li ri
    exact ⟨itemsText_length "" 14 10 CHARCOAL li, itemsText_length "" 14 10 WHITE ri⟩
  · intro i items
    exact itemsText_length "» " 12 8 CHARCOAL items

/-- Claim C7: each renderer is a function of its spec arguments and of the
logo availability alone; appending its output to any two presentation states
yields the same last slide, so two runs with identical arguments produce
identical shape lists. -/
theorem renderers_deterministic :
    (∀ (d1 d2 : List (List Shape)) (logo : Option ℚ) (t s : String)
        (tag : Option String),
      (addSlide d1 (add_title_slide logo t s tag)).getLast?
        = (addSlide d2 (add_title_slide logo t s tag)).getLast?) ∧
    (∀ (d1 d2 : List (List Shape)) (logo : Option ℚ) (t lt rt : String)
        (li ri : List String),
      (addSlide d1 (add_two_column_slide logo t lt li rt ri)).getLast?
        = (addSlide d2 (add_two_column_slide logo t lt li rt ri)).getLast?) ∧
    (∀ (d1 d2 : List (List Shape)) (logo : Option ℚ) (t : String)
        (secs : List Section) (pers : Option String),
      (addSlide d1 (add_content_slide_with_sections logo t secs pers)).getLast?
        = (addSlide d2 (add_content_slide_with_sections logo t secs pers)).getLast?) := by
  refine ⟨?_, ?_, ?_⟩ <;> intros <;> simp [addSlide]

/-- A section card contains no picture, so the logo filter keeps all of it. -/
theorem nonLogo_sectionCard (i : ℕ) (sec : Section) :
    nonLogo (sectionCard i sec) = sectionCard i sec := rfl

/-- The card run of a sectioned slide contains no picture. -/
theorem nonLogo_cards (n : ℕ) (secs : List Section) :
    nonLogo (((List.enumFrom n secs).map fun p => sectionCard p.1 p.2).flatten)
      = ((List.enumFrom n secs).map fun p => sectionCard p.1 p.2).flatten := by
  induction secs generalizing n with
  | nil => rfl
  | cons a l ih =>
    calc nonLogo (((List.enumFrom n (a :: l)).map fun p => sectionCard p.1 p.2).flatten)
        = nonLogo (sectionCard n a)
          ++ nonLogo (((List.enumFrom (n + 1) l).map fun p => sectionCard p.1 p.2).flatten) :=
          List.filter_append _ _
      _ = ((List.enumFrom n (a :: l)).map fun p => sectionCard p.1 p.2).flatten := by
          rw [nonLogo_sectionCard, ih (n + 1)]
          rfl

/-- Claim C4: for each renderer, dropping the logo picture from a slide
rendered with the logo available gives exactly the slide rendered with the
logo load failing; in particular a logo failure never changes the count,
position or content of the non-logo shapes, and the failure slide holds no
picture at all. -/
theorem logo_failure_harmless :
    (∀ (lg : Option ℚ) (t s : String) (tag : Option String),
      nonLogo (add_title_slide lg t s tag) = add_title_slide none t s tag) ∧
    (∀ (lg : Option ℚ) (t lt rt : String) (li ri : List String),
      nonLogo (add_two_column_slide lg t lt li rt ri)
        = add_two_column_slide none t lt li rt ri) ∧
    (∀ (lg : Option ℚ) (t : String) (secs : List Section) (pers : Option String),
      nonLogo (add_content_slide_with_sections lg t secs pers)
        = add_content_slide_with_sections none t secs pers) := by
  refine ⟨?_, ?_, ?_⟩
  · intro lg t s tag
    cases lg <;> cases htag : pyTruthy tag <;>
      simp [add_title_slide, logoShapes, htag, nonLogo, List.filter_append,
        autoShape, textbox, picture, isPicture]
  · intro lg t lt rt li ri
    cases lg <;>
      simp [add_two_column_slide, logoShapes, nonLogo, List.filter_append,
        autoShape, textbox, picture, isPicture]
  · intro lg t secs pers
    have hc : nonLogo ((secs.enum.map fun p => sectionCard p.1 p.2).flatten)
        = (secs.enum.map fun p => sectionCard p.1 p.2).flatten := nonLogo_cards 0 secs
    have hh : nonLogo (sectionedHead lg t pers) = sectionedHead none t pers := by
      cases lg <;> cases hp : pyTruthy pers <;>
        simp [sectionedHead, logoShapes, hp, nonLogo, autoShape, textbox,
          picture, isPicture]
    calc nonLogo (add_content_slide_with_sections lg t secs pers)
        = nonLogo (sectionedHead lg t pers)
          ++ nonLogo ((secs.enum.map fun p => sectionCard p.1 p.2).flatten) :=
          List.filter_append _ _
      _ = add_content_slide_with_sections none t secs pers := by
          rw [hh, hc]
          rfl

/-- Claim C10: the optional tagline and personalization note are tested for
Python truthiness, so the empty string behaves exactly like a missing
argument, and the resulting slide has no shape at the tagline position
(y = 6.9) respectively the personalization position (y = 1.1). -/
theorem empty_string_optionals_falsy :
    (∀ (logo : Option ℚ) (t s : String),
      add_title_slide logo t s (some "") = add_title_slide logo t s none) ∧
    (∀ (logo : Option ℚ) (t : String) (secs : List Section),
      add_content_slide_with_sections logo t secs (some "")
        = add_content_slide_with_sections logo t secs none) ∧
    (∀ (logo : Option ℚ) (t s : String),
      ∀ sh ∈ add_title_slide logo t s none, sh.y ≠ 6.9) ∧
    (∀ (logo : Option ℚ) (t : String) (secs : List Section),
      ∀ sh ∈ add_content_slide_with_sections logo t secs none, sh.y ≠ 1.1) := by
  refine ⟨fun logo t s => rfl, fun logo t secs => rfl, ?_, ?_⟩
  · intro logo t s sh hsh
    cases logo with
    | none =>
      simp [add_title_slide, logoShapes, pyTruthy] at hsh
      rcases hsh with h | h | h | h | h <;> subst h <;>
        norm_num [autoShape, textbox, picture]
    | some w =>
      simp [add_title_slide, logoShapes, pyTruthy] at hsh
      rcases hsh with h | h | h | h | h | h <;> subst h <;>
        norm_num [autoShape, textbox, picture]
  · intro logo t secs sh hsh
    rcases List.mem_append.1 hsh with h | h
    · cases logo with
      | none =>
        simp [sectionedHead, logoShapes, pyTruthy] at h
        rcases h with h | h | h <;> subst h <;>
          norm_num [autoShape, textbox, picture]
      | some w =>
        simp [sectionedHead, logoShapes, pyTruthy] at h
        rcases h with h | h | h | h <;> subst h <;>
          norm_num [autoShape, textbox, picture]
    · obtain ⟨cardL, hcard, hsh2⟩ := List.mem_flatten.1 h
      obtain ⟨p, hp, rfl⟩ := List.mem_map.1 hcard
      simp [sectionCard, cardBox, badgeCircle, badgeNum, headerBox, itemsBox] at hsh2
      rcases hsh2 with h | h | h | h | h <;> subst h <;>
        norm_num [autoShape, textbox, x_pos]

/-- Witness for empty_string_optionals_falsy: the empty tagline slide equals
the tagline-free slide at concrete arguments, and its first shape does not
sit at the tagline position. -/
theorem empty_string_optionals_falsy_witness :
    add_title_slide none "A" "B" (some "") = add_title_slide none "A" "B" none ∧
    ((add_title_slide none "A" "B" none).getD 0 noShape).y ≠ 6.9 :=
  ⟨empty_string_optionals_falsy.1 none "A" "B",
   empty_string_optionals_falsy.2.2.1 none "A" "B" _
     (by simp [add_title_slide, logoShapes, pyTruthy])⟩

/-- Every shape of one of the first three cards lies within the canvas. -/
theorem sectionCard_inBounds (i : ℕ) (hi : i ≤ 2) (sec : Section) :
    ∀ sh ∈ sectionCard i sec, inBounds sh := by
  intro sh hsh
  simp [sectionCard, cardBox, badgeCircle, badgeNum, headerBox, itemsBox] at hsh
  interval_cases i <;>
    rcases hsh with h | h | h | h | h <;> subst h <;>
      norm_num [inBounds, autoShape, textbox, x_pos, start_x, section_width,
        section_gap]

/-- Every shape of a title slide lies within the canvas, provided the logo,
when it loads, is at most the 2.833 inches of space right of it. -/
theorem title_slide_inBounds (lg : Option ℚ) (hl : logoFits lg (13.333 - 10.5))
    (t s : String) (tag : Option String) :
    ∀ sh ∈ add_title_slide lg t s tag, inBounds sh := by
  intro sh hsh
  cases lg with
  | none =>
    cases htag : pyTruthy tag <;> simp [add_title_slide, logoShapes, htag] at hsh
    · rcases hsh with h | h | h | h | h <;> subst h <;>
        norm_num [inBounds, autoShape, textbox]
    · rcases hsh with h | h | h | h | h | h <;> subst h <;>
        norm_num [inBounds, autoShape, textbox]
  | some w =>
    obtain ⟨h0, hw⟩ := hl w rfl
    cases htag : pyTruthy tag <;> simp [add_title_slide, logoShapes, htag] at hsh
    · rcases hsh with h | h | h | h | h | h <;> subst h <;>
        norm_num [inBounds, autoShape, textbox, picture] <;> linarith
    · rcases hsh with h | h | h | h | h | h | h <;> subst h <;>
        norm_num [inBounds, autoShape, textbox, picture] <;> linarith

/-- Every shape of a two-column slide lies within the canvas, provided the
logo, when it loads, is at most the 1.833 inches of space right of it. -/
theorem two_column_inBounds (lg : Option ℚ) (hl : logoFits lg (13.333 - 11.5))
    (t lt rt : String) (li ri : List String) :
    ∀ sh ∈ add_two_column_slide lg t lt li rt ri, inBounds sh := by
  intro sh hsh
  cases lg with
  | none =>
    simp [add_two_column_slide, logoShapes] at hsh
    rcases hsh with h | h | h | h | h | h | h | h | h <;> subst h <;>
      norm_num [inBounds, autoShape, textbox]
  | some w =>
    obtain ⟨h0, hw⟩ := hl w rfl
    simp [add_two_column_slide, logoShapes] at hsh
    rcases hsh with h | h | h | h | h | h | h | h | h | h <;> subst h <;>
      norm_num [inBounds, autoShape, textbox, picture] <;> linarith

/-- Every shape of a sectioned content slide with at most three sections lies
within the canvas, provided the logo, when it loads, is at most the 1.833
inches of space right of it. -/
theorem sectioned_inBounds (lg : Option ℚ) (hl : logoFits lg (13.333 - 11.5))
    (t : String) (secs : List Section) (hn : secs.length ≤ 3)
    (pers : Option String) :
    ∀ sh ∈ add_content_slide_with_sections lg t secs pers, inBounds sh := by
  intro sh hsh
  rcases List.mem_append.1 hsh with h | h
  · cases lg with
    | none =>
      cases hp : pyTruthy pers <;> simp [sectionedHead, logoShapes, hp] at h
      · rcases h with h | h | h <;> subst h <;>
          norm_num [inBounds, autoShape, textbox]
      · rcases h with h | h | h | h <;> subst h <;>
          norm_num [inBounds, autoShape, textbox]
    | some w =>
      obtain ⟨h0, hw⟩ := hl w rfl
      cases hp : pyTruthy pers <;> simp [sectionedHead, logoShapes, hp] at h
      · rcases h with h | h | h | h <;> subst h <;>
          norm_num [inBounds, autoShape, textbox, picture] <;> linarith
      · rcases h with h | h | h | h | h <;> subst h <;>
          norm_num [inBounds, autoShape, textbox, picture] <;> linarith
  · obtain ⟨cardL, hcard, hsh2⟩ := List.mem_flatten.1 h
    obtain ⟨p, hp2, rfl⟩ := List.mem_map.1 hcard
    have hi : p.1 < secs.length := by
      have h2 := List.mem_enum_iff_getElem?.1 hp2
      exact (List.getElem?_eq_some.1 h2).1
    exact sectionCard_inBounds p.1 (by omega) p.2 sh hsh2

/-- Claim C8: in the reference instance (the four hardcoded render calls),
every shape of every slide lies within the 13.333in by 7.5in canvas: x and y
are nonnegative, x + width is at most 13.333 and y + height at most 7.5.  The
logo picture, whose width comes from the external image file, is assumed to
fit the space right of its x offset when it loads. -/
theorem reference_deck_in_bounds (l1 l2 l3 l4 : Option ℚ)
    (h1 : logoFits l1 (13.333 - 10.5)) (h2 : logoFits l2 (13.333 - 11.5))
    (h3 : logoFits l3 (13.333 - 11.5)) (h4 : logoFits l4 (13.333 - 11.5)) :
    ∀ slide ∈ referenceDeck l1 l2 l3 l4, ∀ sh ∈ slide, inBounds sh := by
  intro slide hs
  simp only [referenceDeck, List.mem_cons, List.not_mem_nil, or_false] at hs
  rcases hs with h | h | h | h <;> subst h
  · exact title_slide_inBounds l1 h1 _ _ _
  · exact two_column_inBounds l2 h2 _ _ _ _ _
  · exact sectioned_inBounds l3 h3 _ _ (by simp) _
  · exact sectioned_inBounds l4 h4 _ _ (by simp) _

/-- Witness for reference_deck_in_bounds with all four logo loads failing,
applied to the first shape of the first slide. -/
theorem reference_deck_in_bounds_witness :
    inBounds (((referenceDeck none none none none).getD 0 []).getD 0 noShape) :=
  reference_deck_in_bounds none none none none
    (fun _ h => nomatch h) (fun _ h => nomatch h)
    (fun _ h => nomatch h) (fun _ h => nomatch h)
    _ (List.mem_cons_self _ _)
    _ (List.mem_cons_self _ _)

end Panagora
